import Mathlib

/-!
Shallow embedding of the spam-filter core (`src/spamfilter`): the text
normalizer `force_unicode`, the message decoder `parse_subject_body`, the
SMTP filtering pipeline `handle_DATA`, and the AI-service adapters
`predict_is_spam` / `extract_keywords_from_mails`, together with theorems
about the specification's testable properties.

Python `str` values are modelled as lists of Unicode code points
(`List Nat`), since Python strings are code-point sequences that may hold
lone surrogates. Raw byte payloads are `List Nat` with entries below 256.
-/

namespace Spamfilter

/-- Python text: a sequence of Unicode code points. -/
abbrev PyStr := List Nat

/-- Code-point list of a Lean string literal, for writing the constants that
appear in the source. -/
def txt (s : String) : PyStr := s.data.map Char.toNat

/-- Lower-casing of one code point. Python's `str.lower()` performs full
Unicode case mapping; the inputs relevant here are ASCII letters and
case-invariant CJK characters, so the map is the identity outside `A`-`Z`. -/
def lowerCp (c : Nat) : Nat := if 0x41 ≤ c ∧ c ≤ 0x5A then c + 0x20 else c

/-- Model of Python `s.lower()`. -/
def pyLower (s : PyStr) : PyStr := s.map lowerCp

/-- Whether `needle` is a prefix of `hay` (helper for substring search). -/
def cpStartsWith : PyStr → PyStr → Bool
  | [], _ => true
  | _ :: _, [] => false
  | a :: as, b :: bs => (a == b) && cpStartsWith as bs

/-- Model of Python `needle in hay` on strings: contiguous-substring test. -/
def pyContains (hay needle : PyStr) : Bool :=
  match hay with
  | [] => needle.isEmpty
  | _ :: t => cpStartsWith needle hay || pyContains t needle

/-- Code points stripped by Python `str.strip()` / matched by `\s`
(whitespace; restricted to the code points below U+00FF, the remaining
Unicode space characters being irrelevant to the constants compared here). -/
def isPySpace (c : Nat) : Bool :=
  c = 0x09 || c = 0x0A || c = 0x0B || c = 0x0C || c = 0x0D || c = 0x1C ||
  c = 0x1D || c = 0x1E || c = 0x1F || c = 0x20 || c = 0x85 || c = 0xA0

/-- Model of Python `s.strip()`. -/
def pyStrip (s : PyStr) : PyStr :=
  ((s.dropWhile isPySpace).reverse.dropWhile isPySpace).reverse

/-! ## TextNormalizer: `force_unicode` (smtp_server.py lines 36-61) -/

/-- Value of one hex digit code point, `none` when not `[0-9a-fA-F]`. -/
def hexDigitVal (c : Nat) : Option Nat :=
  if 0x30 ≤ c ∧ c ≤ 0x39 then some (c - 0x30)
  else if 0x41 ≤ c ∧ c ≤ 0x46 then some (c - 0x41 + 10)
  else if 0x61 ≤ c ∧ c ≤ 0x66 then some (c - 0x61 + 10)
  else none

/-- Combined matcher/decoder for the regex `(\\u[0-9a-fA-F]{4})+` together
with `codecs.decode(s, 'unicode_escape')`: `some t` exactly when `s` is a
concatenation of blocks `\uXXXX` (four hex digits), `t` listing the code
points the blocks denote. On inputs of this shape the Python decode cannot
raise (every block yields a code point, lone surrogates included), so the
`except` branch of `force_unicode` is unreachable. -/
def decodeEscapes : PyStr → Option PyStr
  | [] => some []
  | 0x5C :: 0x75 :: a :: b :: c :: d :: rest =>
    match hexDigitVal a, hexDigitVal b, hexDigitVal c, hexDigitVal d,
        decodeEscapes rest with
    | some va, some vb, some vc, some vd, some t =>
      some ((((va * 16 + vb) * 16 + vc) * 16 + vd) :: t)
    | _, _, _, _, _ => none
  | _ => none

/-- Model of `force_unicode` (smtp_server.py): if the whole value matches
`(\\u[0-9a-fA-F]{4})+` (`re.fullmatch`, hence at least one block), decode the
escapes; otherwise return the input unchanged. -/
def force_unicode (s : PyStr) : PyStr :=
  if s.isEmpty then s
  else
    match decodeEscapes s with
    | some t => t
    | none => s

/-- Whether the value fully matches the escape pattern (nonempty and made of
`\uXXXX` blocks): the condition under which `force_unicode` decodes. -/
def matchesEscape (s : PyStr) : Bool := !s.isEmpty && (decodeEscapes s).isSome

/-- Declarative characterisation of the escape pattern, independent of the
executable matcher: `EscapeSeq s t` holds when `s` is a concatenation of
blocks `\uXXXX` of four hex digits and `t` lists the denoted code points. -/
inductive EscapeSeq : PyStr → PyStr → Prop
  | nil : EscapeSeq [] []
  | block {a b c d va vb vc vd : Nat} {rest t : PyStr} :
      hexDigitVal a = some va → hexDigitVal b = some vb →
      hexDigitVal c = some vc → hexDigitVal d = some vd →
      EscapeSeq rest t →
      EscapeSeq (0x5C :: 0x75 :: a :: b :: c :: d :: rest)
        ((((va * 16 + vb) * 16 + vc) * 16 + vd) :: t)

theorem decodeEscapes_of_escapeSeq {s t : PyStr} (h : EscapeSeq s t) :
    decodeEscapes s = some t := by
  induction h with
  | nil => rfl
  | block ha hb hc hd _ ih =>
    simp only [decodeEscapes, ha, hb, hc, hd, ih]

theorem escapeSeq_of_decodeEscapes :
    ∀ s t : PyStr, decodeEscapes s = some t → EscapeSeq s t := by
  intro s
  induction s using decodeEscapes.induct with
  | case1 =>
    intro t h
    simp only [decodeEscapes, Option.some.injEq] at h
    exact h ▸ EscapeSeq.nil
  | case2 a b c d rest va vb vc vd t0 hrec hd hc hb ha ih =>
    intro t h
    simp only [decodeEscapes, ha, hb, hc, hd, hrec, Option.some.injEq] at h
    exact h ▸ EscapeSeq.block ha hb hc hd (ih t0 hrec)
  | case3 a b c d rest hnone ih =>
    intro t h
    simp only [decodeEscapes, Option.some.injEq] at h
    exact absurd h (by simp)
  | case4 s h1 h2 =>
    intro t h
    rw [decodeEscapes] at h
    · exact absurd h (by simp)
    · exact h1
    · exact h2

/-! ## MessageDecoder: `parse_subject_body` (smtp_server.py lines 64-108) -/

/-- Whether a byte is a UTF-8 continuation byte `0x80`-`0xBF`. -/
def isCont (c : Nat) : Bool := decide (0x80 ≤ c ∧ c ≤ 0xBF)

/-- Valid first continuation byte after a three-byte lead (excludes overlong
forms after `0xE0` and surrogates after `0xED`). -/
def cont1ok3 (b c : Nat) : Bool :=
  if b = 0xE0 then decide (0xA0 ≤ c ∧ c ≤ 0xBF)
  else if b = 0xED then decide (0x80 ≤ c ∧ c ≤ 0x9F)
  else isCont c

/-- Valid first continuation byte after a four-byte lead (excludes overlong
forms after `0xF0` and code points beyond U+10FFFF after `0xF4`). -/
def cont1ok4 (b c : Nat) : Bool :=
  if b = 0xF0 then decide (0x90 ≤ c ∧ c ≤ 0xBF)
  else if b = 0xF4 then decide (0x80 ≤ c ∧ c ≤ 0x8F)
  else isCont c

/-- Model of Python `bytes.decode('utf-8', errors='replace')`: standard UTF-8
decoding where each maximal subpart of an ill-formed sequence is replaced by
one U+FFFD, as CPython does. -/
def utf8DecodeReplace : List Nat → PyStr
  | [] => []
  | b :: rest =>
    if b < 0x80 then b :: utf8DecodeReplace rest
    else if b < 0xC2 then 0xFFFD :: utf8DecodeReplace rest
    else if b ≤ 0xDF then
      match hr : rest with
      | c :: rest2 =>
        if isCont c then
          ((b - 0xC0) * 64 + (c - 0x80)) :: utf8DecodeReplace rest2
        else 0xFFFD :: utf8DecodeReplace rest
      | [] => [0xFFFD]
    else if b ≤ 0xEF then
      match hr : rest with
      | c :: rest2 =>
        if cont1ok3 b c then
          match hr2 : rest2 with
          | d :: rest3 =>
            if isCont d then
              ((b - 0xE0) * 4096 + (c - 0x80) * 64 + (d - 0x80)) ::
                utf8DecodeReplace rest3
            else 0xFFFD :: utf8DecodeReplace rest2
          | [] => [0xFFFD]
        else 0xFFFD :: utf8DecodeReplace rest
      | [] => [0xFFFD]
    else if b ≤ 0xF4 then
      match hr : rest with
      | c :: rest2 =>
        if cont1ok4 b c then
          match hr2 : rest2 with
          | d :: rest3 =>
            if isCont d then
              match hr3 : rest3 with
              | e :: rest4 =>
                if isCont e then
                  ((b - 0xF0) * 262144 + (c - 0x80) * 4096 +
                      (d - 0x80) * 64 + (e - 0x80)) :: utf8DecodeReplace rest4
                else 0xFFFD :: utf8DecodeReplace rest3
              | [] => [0xFFFD]
            else 0xFFFD :: utf8DecodeReplace rest2
          | [] => [0xFFFD]
        else 0xFFFD :: utf8DecodeReplace rest
      | [] => [0xFFFD]
    else 0xFFFD :: utf8DecodeReplace rest
termination_by l => l.length
decreasing_by all_goals simp_all <;> omega

/-- One MIME part as seen by the `msg.walk()` loop: whether
`get_content_type() == 'text/plain'`, and the result of
`get_payload(decode=True).decode(charset or 'utf-8', errors='replace')`,
where `Except.error` models that this step raised (for example a
`LookupError` on an unknown declared charset). -/
structure MimePart where
  isPlain : Bool
  decoded : Except Unit PyStr

/-- Outcome of `BytesParser(policy=default).parsebytes` plus the header
access, abstracted: parsing is Python-stdlib behaviour outside this
repository, so `parse_subject_body` is parameterised over it. `subject` is
already `str(msg['subject'])` (hence the text `None` when the header is
absent, never a null value). -/
inductive ParsedMsg where
  | fails
  | multipart (subject : PyStr) (parts : List MimePart)
  | single (subject : PyStr) (decoded : Except Unit PyStr)

/-- First `text/plain` part of the `msg.walk()` order, when any. -/
def findPlainPart : List MimePart → Option (Except Unit PyStr)
  | [] => none
  | p :: rest => if p.isPlain then some p.decoded else findPlainPart rest

/-- Fallback of the `except` branch: fixed error-marker subject and the first
1024 raw bytes decoded best-effort. -/
def parseFallback (raw : List Nat) : PyStr × PyStr :=
  (txt "解析错误", utf8DecodeReplace (raw.take 1024))

/-- Model of `parse_subject_body` (smtp_server.py): structural parsing and
per-part decoding are abstracted into `parse`; any exception inside the
`try` block (parse failure or a failing decode) lands in the fallback. The
body, and only the body, is passed through `force_unicode`. -/
def parse_subject_body (parse : List Nat → ParsedMsg) (raw : List Nat) :
    PyStr × PyStr :=
  match parse raw with
  | .fails => parseFallback raw
  | .multipart subject parts =>
    match findPlainPart parts with
    | some (.ok body) => (subject, force_unicode body)
    | some (.error _) => parseFallback raw
    | none => (subject, [])
  | .single subject (.ok body) => (subject, force_unicode body)
  | .single _ (.error _) => parseFallback raw

/-! ## Classifier adapter: `predict_is_spam` (ai_service.py lines 16-79) -/

/-- The placeholder test of ai_service.py:
`not SILICONFLOW_API_KEY or "YOUR" in SILICONFLOW_API_KEY`. The key comes
from `config.py` (not part of the core), so it is a parameter everywhere. -/
def keyUnconfigured (key : PyStr) : Bool := key.isEmpty || pyContains key (txt "YOUR")

/-- Outcome of one HTTP round trip to the AI service, abstracted at the
network boundary: `err` models any raised exception (connect/timeout error,
`raise_for_status` on a non-success status, malformed JSON, missing
`choices` entry), `ok content` a reply whose extracted
`choices[0].message.content` is `content`. -/
inductive ApiOutcome where
  | err
  | ok (content : PyStr)
deriving DecidableEq

/-- Model of `predict_is_spam` (ai_service.py): with an unconfigured key the
adapter answers 0 before any network activity (hence independently of
`net`); otherwise an exception yields 0 and a reply yields 1 exactly when
the stripped content is the single character `1`. -/
def predict_is_spam (key : PyStr) (net : ApiOutcome) : Nat :=
  if keyUnconfigured key then 0
  else
    match net with
    | .err => 0
    | .ok content => if pyStrip content = txt "1" then 1 else 0

/-! ## FilterPipeline: `SpamFilterHandler.handle_DATA`
(smtp_server.py lines 127-187) -/

/-- Envelope as delivered by aiosmtpd: sender, recipients, raw content. -/
structure Envelope where
  mail_from : PyStr
  rcpt_tos : List PyStr
  content : List Nat

/-- Snapshot of the three rule tables as returned by `database.get_list`
(a Python `set`; a list here fixes one arbitrary iteration order, and every
theorem quantifies over all orders). -/
structure RuleDb where
  whitelist : List PyStr
  blacklist : List PyStr
  keywords : List PyStr

/-- Record written by `database.save_mail(mail_from, rcpt_to, subject, body,
label)`. -/
structure SavedMail where
  mail_from : PyStr
  rcpt_to : PyStr
  subject : PyStr
  body : PyStr
  label : Nat
deriving DecidableEq

/-- Reply string of `handle_DATA` together with the record it persisted. -/
structure HandleResult where
  reply : PyStr
  saved : SavedMail
deriving DecidableEq

/-- Model of `','.join(rcpt_tos)`. -/
def joinComma : List PyStr → PyStr
  | [] => []
  | [r] => r
  | r :: rest => r ++ 0x2C :: joinComma rest

/-- The haystack `lower_content = (subject + ' ' + body).lower()` of the
keyword stage. -/
def haystack (subject body : PyStr) : PyStr := pyLower (subject ++ txt " " ++ body)

/-- First keyword of the snapshot whose lower-casing occurs in
`lower_content`, as found by the `for kw in keywords` loop. -/
def firstKeywordHit (lower_content : PyStr) : List PyStr → Option PyStr
  | [] => none
  | kw :: rest =>
    if pyContains lower_content (pyLower kw) then some kw
    else firstKeywordHit lower_content rest

/-- Stages of `handle_DATA` after message decoding (smtp_server.py lines
154-187): whitelist, blacklist, keyword scan, AI prediction, default
accept. `ai subject body` stands for `await predict_is_spam(subject,
body)`. -/
def filterStages (db : RuleDb) (ai : PyStr → PyStr → Nat) (mail_from : PyStr)
    (rcpt_tos : List PyStr) (subject body : PyStr) : HandleResult :=
  if mail_from ∈ db.whitelist then
    ⟨txt "250 Message accepted (whitelisted)",
      ⟨mail_from, joinComma rcpt_tos, subject, body, 0⟩⟩
  else if mail_from ∈ db.blacklist then
    ⟨txt "550 Message blocked (sender blacklisted)",
      ⟨mail_from, joinComma rcpt_tos, subject, body, 1⟩⟩
  else
    match firstKeywordHit (haystack subject body) db.keywords with
    | some kw =>
      ⟨txt "550 Message blocked (spam keyword: " ++ kw ++ txt ")",
        ⟨mail_from, joinComma rcpt_tos, subject, body, 1⟩⟩
    | none =>
      if ai subject body = 1 then
        ⟨txt "550 Message blocked (classified as spam by AI)",
          ⟨mail_from, joinComma rcpt_tos, subject, body, 1⟩⟩
      else
        ⟨txt "250 Message accepted for delivery",
          ⟨mail_from, joinComma rcpt_tos, subject, body, 0⟩⟩

/-- Model of `SpamFilterHandler.handle_DATA`: decode the raw content, then
run the filter stages. -/
def handle_DATA (db : RuleDb) (ai : PyStr → PyStr → Nat)
    (parse : List Nat → ParsedMsg) (env : Envelope) : HandleResult :=
  let sb := parse_subject_body parse env.content
  filterStages db ai env.mail_from env.rcpt_tos sb.1 sb.2

/-! ## KeywordExtractor: `extract_keywords_from_mails`
(ai_service.py lines 82-166) -/

/-- The stoplist `{'邮件', '主题', '正文', '内容', '无'}`. -/
def stoplistKw : List PyStr :=
  [txt "邮件", txt "主题", txt "正文", txt "内容", txt "无"]

/-- Separator class of the split regex `[,，\s]+`: comma, fullwidth comma,
whitespace. -/
def isSplitCp (c : Nat) : Bool := c = 0x2C || c = 0xFF0C || isPySpace c

/-- Model of `re.split(r'[,，\s]+', s)`: split on maximal separator runs
(empty tokens at the borders included, as `re.split` produces them; they are
discarded by the nonempty check downstream anyway). -/
def splitKeywordsRaw : PyStr → PyStr → List PyStr
  | [], acc => [acc.reverse]
  | c :: rest, acc =>
    if isSplitCp c then
      acc.reverse :: splitKeywordsRaw (rest.dropWhile isSplitCp) []
    else splitKeywordsRaw rest (c :: acc)
termination_by s _ => s.length
decreasing_by
  all_goals simp
  exact Nat.lt_succ_of_le (List.Sublist.length_le (List.dropWhile_sublist _))

/-- The cleaning step `kw.strip().lower()`. -/
def cleanKeyword (kw : PyStr) : PyStr := pyLower (pyStrip kw)

/-- The filter line of the extractor: nonempty, length above 1, not in the
stoplist. -/
def keywordAccepted (kw : PyStr) : Bool :=
  let c := cleanKeyword kw
  !c.isEmpty && decide (1 < c.length) && !stoplistKw.contains c

/-- One `all_extracted_keywords.add(kw_cleaned)` step on the accumulated
set, modelled as insert-if-absent on a list. -/
def addKeyword (acc : List PyStr) (kw : PyStr) : List PyStr :=
  if keywordAccepted kw then
    if cleanKeyword kw ∈ acc then acc else acc ++ [cleanKeyword kw]
  else acc

/-- Keyword harvesting from one successful reply `content`: skip when empty
or (lower-cased) the sentinel `无`, otherwise split, clean, filter and add
each token. -/
def harvestContent (acc : List PyStr) (content : PyStr) : List PyStr :=
  if ¬content.isEmpty ∧ pyLower content ≠ txt "无" then
    (splitKeywordsRaw content []).foldl addKeyword acc
  else acc

/-- Loop body of the extractor over the batch: each mail `(id, subject,
body)` is paired with the outcome its API call would have (the call is
request-for-that-mail specific, so the pairing is the network abstraction).
An exception anywhere in a mail's `try` block records its id in the failed
list and moves on. -/
def extractLoop :
    List ((Nat × PyStr × PyStr) × ApiOutcome) → List PyStr → List Nat →
      List PyStr × List Nat
  | [], acc, failed => (acc, failed)
  | (m, .err) :: rest, acc, failed => extractLoop rest acc (failed ++ [m.1])
  | (_, .ok content) :: rest, acc, failed =>
    extractLoop rest (harvestContent acc content) failed

/-- Model of `extract_keywords_from_mails` (ai_service.py): fail fast with
`ValueError` when the key is unconfigured, before touching any mail;
otherwise run the per-mail loop with empty accumulators. -/
def extract_keywords_from_mails (key : PyStr)
    (mails : List ((Nat × PyStr × PyStr) × ApiOutcome)) :
    Except PyStr (List PyStr × List Nat) :=
  if keyUnconfigured key then
    .error (txt "AI_SERVICE: SILICONFLOW_API_KEY 未配置，无法提取关键词。")
  else .ok (extractLoop mails [] [])

/-! ## Helper lemmas -/

theorem force_unicode_of_not_matches {s : PyStr} (h : matchesEscape s = false) :
    force_unicode s = s := by
  unfold matchesEscape at h
  unfold force_unicode
  rcases Bool.and_eq_false_iff.mp h with h1 | h1
  · simp_all
  · cases hd : decodeEscapes s <;> simp_all

theorem pyContains_nil (hay : PyStr) : pyContains hay [] = true := by
  induction hay with
  | nil => rfl
  | cons a t ih => simp [pyContains, cpStartsWith, ih]

theorem firstKeywordHit_mem {hay kw : PyStr} :
    ∀ {l : List PyStr}, firstKeywordHit hay l = some kw →
      kw ∈ l ∧ pyContains hay (pyLower kw) = true := by
  intro l
  induction l with
  | nil => intro h; simp [firstKeywordHit] at h
  | cons k rest ih =>
    intro h
    by_cases hc : pyContains hay (pyLower k) = true
    · simp only [firstKeywordHit, if_pos hc, Option.some.injEq] at h
      exact ⟨h ▸ List.mem_cons_self k rest, h ▸ hc⟩
    · simp only [firstKeywordHit, if_neg hc] at h
      exact ⟨List.mem_cons_of_mem k (ih h).1, (ih h).2⟩

theorem firstKeywordHit_isSome {hay k : PyStr} {l : List PyStr}
    (hk : k ∈ l) (hc : pyContains hay (pyLower k) = true) :
    (firstKeywordHit hay l).isSome := by
  induction l with
  | nil => cases hk
  | cons k0 rest ih =>
    by_cases h0 : pyContains hay (pyLower k0) = true
    · simp [firstKeywordHit, h0]
    · rcases List.mem_cons.mp hk with rfl | hmem
      · exact absurd hc h0
      · simpa [firstKeywordHit, h0] using ih hmem

theorem firstKeywordHit_eq_none {hay : PyStr} {l : List PyStr}
    (h : ∀ k ∈ l, pyContains hay (pyLower k) = false) :
    firstKeywordHit hay l = none := by
  induction l with
  | nil => rfl
  | cons k0 rest ih =>
    have h0 : ¬ pyContains hay (pyLower k0) = true := by
      simp [h k0 (List.mem_cons_self k0 rest)]
    simp only [firstKeywordHit, if_neg h0]
    exact ih fun k hk => h k (List.mem_cons_of_mem k0 hk)

/-! ## Claims about the filtering pipeline -/

/-- C1: an envelope whose sender is a member of the whitelist snapshot is
answered `250 Message accepted (whitelisted)` and persisted with label 0,
for every blacklist content, keyword set, message text (any parse result of
any raw content) and classifier opinion: the whitelist stage strictly
dominates all later stages. -/
theorem spec_C1 (db : RuleDb) (ai : PyStr → PyStr → Nat)
    (parse : List Nat → ParsedMsg) (env : Envelope)
    (h : env.mail_from ∈ db.whitelist) :
    handle_DATA db ai parse env =
      ⟨txt "250 Message accepted (whitelisted)",
        ⟨env.mail_from, joinComma env.rcpt_tos,
          (parse_subject_body parse env.content).1,
          (parse_subject_body parse env.content).2, 0⟩⟩ := by
  simp [handle_DATA, filterStages, h]

theorem spec_C1_witness :
    txt "a@x.com" ∈ (RuleDb.mk [txt "a@x.com"] [txt "a@x.com"] [txt "win"]).whitelist ∧
    handle_DATA (RuleDb.mk [txt "a@x.com"] [txt "a@x.com"] [txt "win"])
        (fun _ _ => 1)
        (fun _ => ParsedMsg.single (txt "WIN FREE MONEY") (.ok (txt "win cash")))
        (Envelope.mk (txt "a@x.com") [txt "r@y.com"] []) =
      ⟨txt "250 Message accepted (whitelisted)",
        ⟨txt "a@x.com", joinComma [txt "r@y.com"],
          (parse_subject_body
            (fun _ => ParsedMsg.single (txt "WIN FREE MONEY") (.ok (txt "win cash"))) []).1,
          (parse_subject_body
            (fun _ => ParsedMsg.single (txt "WIN FREE MONEY") (.ok (txt "win cash"))) []).2,
          0⟩⟩ :=
  ⟨by decide, spec_C1 _ _ _ _ (by decide)⟩

/-- C4: an envelope whose sender is in the blacklist snapshot and not in
the whitelist snapshot is answered `550 Message blocked (sender
blacklisted)` and persisted with label 1, for every keyword set, message
text and classifier opinion. -/
theorem spec_C4 (db : RuleDb) (ai : PyStr → PyStr → Nat)
    (parse : List Nat → ParsedMsg) (env : Envelope)
    (hb : env.mail_from ∈ db.blacklist) (hw : env.mail_from ∉ db.whitelist) :
    handle_DATA db ai parse env =
      ⟨txt "550 Message blocked (sender blacklisted)",
        ⟨env.mail_from, joinComma env.rcpt_tos,
          (parse_subject_body parse env.content).1,
          (parse_subject_body parse env.content).2, 1⟩⟩ := by
  simp [handle_DATA, filterStages, hb, hw]

theorem spec_C4_witness :
    txt "b@x.com" ∈ (RuleDb.mk [txt "a@x.com"] [txt "b@x.com"] [txt "win"]).blacklist ∧
    txt "b@x.com" ∉ (RuleDb.mk [txt "a@x.com"] [txt "b@x.com"] [txt "win"]).whitelist ∧
    handle_DATA (RuleDb.mk [txt "a@x.com"] [txt "b@x.com"] [txt "win"])
        (fun _ _ => 0)
        (fun _ => ParsedMsg.single (txt "hello") (.ok (txt "plain text")))
        (Envelope.mk (txt "b@x.com") [txt "r@y.com"] []) =
      ⟨txt "550 Message blocked (sender blacklisted)",
        ⟨txt "b@x.com", joinComma [txt "r@y.com"],
          (parse_subject_body
            (fun _ => ParsedMsg.single (txt "hello") (.ok (txt "plain text"))) []).1,
          (parse_subject_body
            (fun _ => ParsedMsg.single (txt "hello") (.ok (txt "plain text"))) []).2,
          1⟩⟩ :=
  ⟨by decide, by decide, spec_C4 _ _ _ _ (by decide) (by decide)⟩

/-- C3: for a sender in neither list, if some keyword of the snapshot
lower-cases to a substring of `lowercase(subject ++ " " ++ body)`, the
pipeline rejects at the keyword stage with label 1, reporting some matching
keyword (the first hit in the iteration order of the snapshot). -/
theorem spec_C3 (db : RuleDb) (ai : PyStr → PyStr → Nat) (mail_from : PyStr)
    (rcpt_tos : List PyStr) (subject body : PyStr)
    (hw : mail_from ∉ db.whitelist) (hb : mail_from ∉ db.blacklist)
    (hk : ∃ k ∈ db.keywords,
      pyContains (haystack subject body) (pyLower k) = true) :
    ∃ k' ∈ db.keywords,
      pyContains (haystack subject body) (pyLower k') = true ∧
      filterStages db ai mail_from rcpt_tos subject body =
        ⟨txt "550 Message blocked (spam keyword: " ++ k' ++ txt ")",
          ⟨mail_from, joinComma rcpt_tos, subject, body, 1⟩⟩ := by
  obtain ⟨k, hmem, hc⟩ := hk
  obtain ⟨k', hk'⟩ := Option.isSome_iff_exists.mp (firstKeywordHit_isSome hmem hc)
  obtain ⟨hmem', hc'⟩ := firstKeywordHit_mem hk'
  exact ⟨k', hmem', hc', by simp [filterStages, hw, hb, hk']⟩

theorem spec_C3_witness :
    (txt "c@z.com" ∉ (RuleDb.mk [] [] [txt "免费彩票"]).whitelist) ∧
    (txt "c@z.com" ∉ (RuleDb.mk [] [] [txt "免费彩票"]).blacklist) ∧
    (∃ k ∈ (RuleDb.mk [] [] [txt "免费彩票"]).keywords,
      pyContains (haystack (txt "hi") (txt "来领免费彩票啦")) (pyLower k) = true) ∧
    ∃ k' ∈ (RuleDb.mk [] [] [txt "免费彩票"]).keywords,
      pyContains (haystack (txt "hi") (txt "来领免费彩票啦")) (pyLower k') = true ∧
      filterStages (RuleDb.mk [] [] [txt "免费彩票"]) (fun _ _ => 0) (txt "c@z.com")
          [txt "r@y.com"] (txt "hi") (txt "来领免费彩票啦") =
        ⟨txt "550 Message blocked (spam keyword: " ++ k' ++ txt ")",
          ⟨txt "c@z.com", joinComma [txt "r@y.com"], txt "hi", txt "来领免费彩票啦", 1⟩⟩ :=
  ⟨by decide, by decide, ⟨txt "免费彩票", by decide⟩,
    spec_C3 _ _ _ _ _ _ (by decide) (by decide) ⟨txt "免费彩票", by decide⟩⟩

/-- C9: if the empty string is among the keyword snapshot, every envelope
from a sender in neither list is rejected at the keyword stage, whatever the
subject and body: the empty keyword is a substring of every haystack. -/
theorem spec_C9 (db : RuleDb) (ai : PyStr → PyStr → Nat) (mail_from : PyStr)
    (rcpt_tos : List PyStr) (subject body : PyStr)
    (hw : mail_from ∉ db.whitelist) (hb : mail_from ∉ db.blacklist)
    (hk : [] ∈ db.keywords) :
    ∃ k' ∈ db.keywords,
      filterStages db ai mail_from rcpt_tos subject body =
        ⟨txt "550 Message blocked (spam keyword: " ++ k' ++ txt ")",
          ⟨mail_from, joinComma rcpt_tos, subject, body, 1⟩⟩ := by
  have hc : pyContains (haystack subject body) (pyLower []) = true :=
    pyContains_nil _
  obtain ⟨k', hk'⟩ := Option.isSome_iff_exists.mp (firstKeywordHit_isSome hk hc)
  obtain ⟨hmem', _⟩ := firstKeywordHit_mem hk'
  exact ⟨k', hmem', by simp [filterStages, hw, hb, hk']⟩

theorem spec_C9_witness :
    (txt "c@z.com" ∉ (RuleDb.mk [] [] [txt "", txt "win"]).whitelist) ∧
    (txt "c@z.com" ∉ (RuleDb.mk [] [] [txt "", txt "win"]).blacklist) ∧
    ([] ∈ (RuleDb.mk [] [] [txt "", txt "win"]).keywords) ∧
    ∃ k' ∈ (RuleDb.mk [] [] [txt "", txt "win"]).keywords,
      filterStages (RuleDb.mk [] [] [txt "", txt "win"]) (fun _ _ => 0)
          (txt "c@z.com") [txt "r@y.com"] (txt "any subject") (txt "any body") =
        ⟨txt "550 Message blocked (spam keyword: " ++ k' ++ txt ")",
          ⟨txt "c@z.com", joinComma [txt "r@y.com"], txt "any subject", txt "any body", 1⟩⟩ :=
  ⟨by decide, by decide, by decide,
    spec_C9 _ _ _ _ _ _ (by decide) (by decide) (by decide)⟩

/-- C2: for a sender in neither list whose text matches no keyword, a Spam
opinion of the classifier yields `550 ... (classified as spam by AI)` with
label 1; an unconfigured or placeholder key makes `predict_is_spam` answer
0 whatever the network would do (no call is attempted), a raised network
error answers 0, and a NotSpam answer makes the pipeline accept with
`250 Message accepted for delivery` and label 0 — classifier failure alone
never causes rejection. -/
theorem spec_C2 (db : RuleDb) (mail_from : PyStr) (rcpt_tos : List PyStr)
    (subject body key : PyStr) (net : PyStr → PyStr → ApiOutcome)
    (hw : mail_from ∉ db.whitelist) (hb : mail_from ∉ db.blacklist)
    (hk : ∀ k ∈ db.keywords,
      pyContains (haystack subject body) (pyLower k) = false) :
    (predict_is_spam key (net subject body) = 1 →
      filterStages db (fun s b => predict_is_spam key (net s b)) mail_from
          rcpt_tos subject body =
        ⟨txt "550 Message blocked (classified as spam by AI)",
          ⟨mail_from, joinComma rcpt_tos, subject, body, 1⟩⟩) ∧
    (keyUnconfigured key = true → ∀ o : ApiOutcome, predict_is_spam key o = 0) ∧
    (predict_is_spam key ApiOutcome.err = 0) ∧
    (∀ content, pyStrip content ≠ txt "1" →
      predict_is_spam key (ApiOutcome.ok content) = 0) ∧
    (predict_is_spam key (net subject body) = 0 →
      filterStages db (fun s b => predict_is_spam key (net s b)) mail_from
          rcpt_tos subject body =
        ⟨txt "250 Message accepted for delivery",
          ⟨mail_from, joinComma rcpt_tos, subject, body, 0⟩⟩) := by
  have hnone := firstKeywordHit_eq_none hk
  refine ⟨fun h1 => ?_, fun hkey o => ?_, ?_, fun content hc => ?_, fun h0 => ?_⟩
  · simp [filterStages, hw, hb, hnone, h1]
  · simp [predict_is_spam, hkey]
  · unfold predict_is_spam; split <;> rfl
  · unfold predict_is_spam
    split
    · rfl
    · simp [hc]
  · simp [filterStages, hw, hb, hnone, h0]

theorem spec_C2_witness :
    (txt "c@z.com" ∉ (RuleDb.mk [] [] [txt "win"]).whitelist) ∧
    (txt "c@z.com" ∉ (RuleDb.mk [] [] [txt "win"]).blacklist) ∧
    (∀ k ∈ (RuleDb.mk [] [] [txt "win"]).keywords,
      pyContains (haystack (txt "hello") (txt "see you")) (pyLower k) = false) ∧
    (predict_is_spam (txt "sk-abc") ((fun _ _ => ApiOutcome.err) (txt "hello") (txt "see you")) = 0 →
      filterStages (RuleDb.mk [] [] [txt "win"])
          (fun s b => predict_is_spam (txt "sk-abc") ((fun _ _ => ApiOutcome.err) s b))
          (txt "c@z.com") [txt "r@y.com"] (txt "hello") (txt "see you") =
        ⟨txt "250 Message accepted for delivery",
          ⟨txt "c@z.com", joinComma [txt "r@y.com"], txt "hello", txt "see you", 0⟩⟩) :=
  ⟨by decide, by decide, by decide,
    (spec_C2 (RuleDb.mk [] [] [txt "win"]) (txt "c@z.com") [txt "r@y.com"]
      (txt "hello") (txt "see you") (txt "sk-abc") (fun _ _ => ApiOutcome.err)
      (by decide) (by decide) (by decide)).2.2.2.2⟩

/-! ## Claims about the message decoder -/

/-- C5: `parse_subject_body` is total (the model returns a pair for every
input, mirroring that every exception in the `try` block is caught), and
when structural parsing fails the returned pair is the fixed error marker
`解析错误` together with the first 1024 raw bytes decoded as UTF-8 with
U+FFFD replacement. -/
theorem spec_C5 (parse : List Nat → ParsedMsg) (raw : List Nat)
    (h : parse raw = ParsedMsg.fails) :
    parse_subject_body parse raw =
      (txt "解析错误", utf8DecodeReplace (raw.take 1024)) := by
  simp [parse_subject_body, h, parseFallback]

theorem spec_C5_witness :
    ((fun _ : List Nat => ParsedMsg.fails) [0xFF, 0x41, 0xC3] = ParsedMsg.fails) ∧
    parse_subject_body (fun _ => ParsedMsg.fails) [0xFF, 0x41, 0xC3] =
      (txt "解析错误", utf8DecodeReplace (List.take 1024 [0xFF, 0x41, 0xC3])) :=
  ⟨rfl, spec_C5 _ _ rfl⟩

/-- C10: whenever the payload parses (single-part with a decodable body,
multipart with a decodable first `text/plain` part, or multipart without a
plain part), the returned subject is the parsed header value with
`force_unicode` never applied to it; only the body goes through
`force_unicode`. In particular a subject made entirely of `\uXXXX` escapes
is returned still escaped. -/
theorem spec_C10 (parse : List Nat → ParsedMsg) (raw : List Nat) :
    (∀ subject body, parse raw = ParsedMsg.single subject (.ok body) →
      parse_subject_body parse raw = (subject, force_unicode body)) ∧
    (∀ subject parts body, parse raw = ParsedMsg.multipart subject parts →
      findPlainPart parts = some (.ok body) →
      parse_subject_body parse raw = (subject, force_unicode body)) ∧
    (∀ subject parts, parse raw = ParsedMsg.multipart subject parts →
      findPlainPart parts = none →
      parse_subject_body parse raw = (subject, [])) := by
  refine ⟨fun subject body h => ?_, fun subject parts body h hp => ?_,
    fun subject parts h hp => ?_⟩
  · simp [parse_subject_body, h]
  · simp [parse_subject_body, h, hp]
  · simp [parse_subject_body, h, hp]

theorem spec_C10_witness :
    ((fun _ : List Nat => ParsedMsg.single (txt "\\u0041") (.ok (txt "\\u0042"))) [] =
      ParsedMsg.single (txt "\\u0041") (.ok (txt "\\u0042"))) ∧
    parse_subject_body
        (fun _ => ParsedMsg.single (txt "\\u0041") (.ok (txt "\\u0042"))) [] =
      (txt "\\u0041", force_unicode (txt "\\u0042")) ∧
    force_unicode (txt "\\u0042") = [0x42] :=
  ⟨rfl, (spec_C10 _ _).1 _ _ rfl, by decide⟩

/-! ## Claims about the text normalizer -/

/-- C6 fails as stated: `force_unicode` is not idempotent. The escape string
for the six characters `A` decodes in one application to the literal
text `A`, which itself fully matches the escape pattern, so a second
application decodes it further to `A`. -/
theorem spec_C6_counterexample :
    ¬ (force_unicode (force_unicode (txt "\\u005c\\u0075\\u0030\\u0030\\u0034\\u0031")) =
        force_unicode (txt "\\u005c\\u0075\\u0030\\u0030\\u0034\\u0031")) := by
  decide

/-- C6 amended: `force_unicode` is idempotent on every input whose one-pass
output does not itself fully match the escape pattern (the failing inputs
are exactly those decoding to a value that is again a full escape string),
and it leaves every input that does not match the pattern unchanged. -/
theorem spec_C6_amended (s : PyStr) :
    (matchesEscape (force_unicode s) = false →
      force_unicode (force_unicode s) = force_unicode s) ∧
    (matchesEscape s = false → force_unicode s = s) :=
  ⟨fun h => force_unicode_of_not_matches h, fun h => force_unicode_of_not_matches h⟩

theorem spec_C6_amended_witness :
    matchesEscape (force_unicode (txt "hello \\u0041")) = false ∧
    matchesEscape (txt "hello \\u0041") = false ∧
    force_unicode (force_unicode (txt "hello \\u0041")) =
      force_unicode (txt "hello \\u0041") ∧
    force_unicode (txt "hello \\u0041") = txt "hello \\u0041" :=
  ⟨by decide, by decide, (spec_C6_amended _).1 (by decide),
    (spec_C6_amended _).2 (by decide)⟩

/-- C8: `force_unicode` decodes exactly the values that fully match one or
more consecutive `\uXXXX` four-hex-digit escape blocks (`EscapeSeq`, the
declarative reading of the pattern), returning the code points the escapes
denote; on every other input — embedded partial escapes included — it
returns the input unchanged. The model is total, mirroring that the Python
function never raises (its `except` fallback also returns the input). -/
theorem spec_C8 (s : PyStr) :
    (∀ t, EscapeSeq s t → s ≠ [] → force_unicode s = t) ∧
    (¬ (s ≠ [] ∧ ∃ t, EscapeSeq s t) → force_unicode s = s) := by
  constructor
  · intro t ht hne
    have hd := decodeEscapes_of_escapeSeq ht
    simp [force_unicode, hne, hd]
  · intro h
    by_cases hne : s = []
    · simp [force_unicode, hne]
    · have hno : ∀ t, ¬ EscapeSeq s t := by
        intro t ht
        exact h ⟨hne, t, ht⟩
      have hd : decodeEscapes s = none := by
        cases hd : decodeEscapes s with
        | none => rfl
        | some t => exact absurd (escapeSeq_of_decodeEscapes s t hd) (hno t)
      simp [force_unicode, hne, hd]

theorem spec_C8_witness :
    force_unicode (txt "\\u4e2d\\u6587") = txt "中文" := by
  have he : txt "\\u4e2d\\u6587" = [92, 117, 52, 101, 50, 100, 92, 117, 54, 53, 56, 55] := by
    decide
  have ht : EscapeSeq [92, 117, 52, 101, 50, 100, 92, 117, 54, 53, 56, 55]
      [0x4e2d, 0x6587] := by
    have h1 : EscapeSeq ([] : PyStr) ([] : PyStr) := EscapeSeq.nil
    have h2 := @EscapeSeq.block 54 53 56 55 6 5 8 7 [] [] rfl rfl rfl rfl h1
    exact @EscapeSeq.block 52 101 50 100 4 14 2 13 _ _ rfl rfl rfl rfl h2
  exact (spec_C8 (txt "\\u4e2d\\u6587")).1 [0x4e2d, 0x6587] (he ▸ ht) (by decide)

/-! ## Claims about the keyword extractor -/

/-- The ids the loop is expected to report as failed: those of the mails
whose API call raises, in batch order. -/
def failedIdsOf (mails : List ((Nat × PyStr × PyStr) × ApiOutcome)) : List Nat :=
  mails.filterMap fun me =>
    match me.2 with
    | .err => some me.1.1
    | .ok _ => none

theorem mem_addKeyword_iff {acc : List PyStr} {kw x : PyStr} :
    x ∈ addKeyword acc kw ↔
      x ∈ acc ∨ (keywordAccepted kw = true ∧ x = cleanKeyword kw) := by
  unfold addKeyword
  by_cases ha : keywordAccepted kw = true
  · by_cases hm : cleanKeyword kw ∈ acc
    · simp only [if_pos ha, if_pos hm]
      constructor
      · exact fun h => Or.inl h
      · rintro (h | ⟨_, rfl⟩)
        · exact h
        · exact hm
    · simp only [if_pos ha, if_neg hm, List.mem_append, List.mem_singleton]
      tauto
  · simp only [if_neg ha]
    tauto

theorem mem_foldl_addKeyword {x : PyStr} :
    ∀ (toks : List PyStr) (acc : List PyStr),
      x ∈ toks.foldl addKeyword acc ↔
        x ∈ acc ∨ ∃ t ∈ toks, keywordAccepted t = true ∧ x = cleanKeyword t := by
  intro toks
  induction toks with
  | nil => simp
  | cons t rest ih =>
    intro acc
    simp only [List.foldl_cons, ih, mem_addKeyword_iff, List.mem_cons]
    constructor
    · rintro ((h | h) | ⟨t', ht', h⟩)
      · exact Or.inl h
      · exact Or.inr ⟨t, Or.inl rfl, h⟩
      · exact Or.inr ⟨t', Or.inr ht', h⟩
    · rintro (h | ⟨t', rfl | ht', h⟩)
      · exact Or.inl (Or.inl h)
      · exact Or.inl (Or.inr h)
      · exact Or.inr ⟨t', ht', h⟩

theorem mem_harvestContent_iff {acc : List PyStr} {content x : PyStr} :
    x ∈ harvestContent acc content ↔ x ∈ acc ∨ x ∈ harvestContent [] content := by
  unfold harvestContent
  by_cases hc : ¬content.isEmpty = true ∧ pyLower content ≠ txt "无"
  · simp only [if_pos hc, mem_foldl_addKeyword, List.not_mem_nil, false_or]
  · simp only [if_neg hc, List.not_mem_nil, or_false]

theorem extractLoop_snd :
    ∀ (mails : List ((Nat × PyStr × PyStr) × ApiOutcome)) (acc : List PyStr)
      (failed : List Nat),
      (extractLoop mails acc failed).2 = failed ++ failedIdsOf mails := by
  intro mails
  induction mails with
  | nil => intro acc failed; simp [extractLoop, failedIdsOf]
  | cons me rest ih =>
    intro acc failed
    obtain ⟨m, o⟩ := me
    cases o with
    | err => simp [extractLoop, failedIdsOf, ih, List.filterMap_cons]
    | ok content => simp [extractLoop, failedIdsOf, ih, List.filterMap_cons]

theorem extractLoop_fst_mono {x : PyStr} :
    ∀ (mails : List ((Nat × PyStr × PyStr) × ApiOutcome)) (acc : List PyStr)
      (failed : List Nat),
      x ∈ acc → x ∈ (extractLoop mails acc failed).1 := by
  intro mails
  induction mails with
  | nil => intro acc failed h; simpa [extractLoop] using h
  | cons me rest ih =>
    intro acc failed h
    obtain ⟨m, o⟩ := me
    cases o with
    | err => exact ih _ _ h
    | ok content => exact ih _ _ (mem_harvestContent_iff.mpr (Or.inl h))

theorem extractLoop_fst_of_ok {x : PyStr} {m : Nat × PyStr × PyStr}
    {content : PyStr} :
    ∀ (mails : List ((Nat × PyStr × PyStr) × ApiOutcome)) (acc : List PyStr)
      (failed : List Nat),
      (m, ApiOutcome.ok content) ∈ mails → x ∈ harvestContent [] content →
      x ∈ (extractLoop mails acc failed).1 := by
  intro mails
  induction mails with
  | nil => intro acc failed h; cases h
  | cons me rest ih =>
    intro acc failed hmem hx
    rcases List.mem_cons.mp hmem with rfl | hmem'
    · exact extractLoop_fst_mono rest _ _ (mem_harvestContent_iff.mpr (Or.inr hx))
    · obtain ⟨m', o⟩ := me
      cases o with
      | err => exact ih _ _ hmem' hx
      | ok content' => exact ih _ _ hmem' hx

/-- C7: `extract_keywords_from_mails` fails exactly when the credential is
absent or a placeholder, and does so with the fixed message before any
per-mail work (the error is the same for every batch); with a configured
credential it always returns a result whose failed-id list is precisely the
ids of the mails whose call raised, in order, and whose keyword set
contains every keyword harvested from each successfully processed mail —
one mail's failure never aborts the batch. -/
theorem spec_C7 (key : PyStr)
    (mails : List ((Nat × PyStr × PyStr) × ApiOutcome)) :
    (keyUnconfigured key = true →
      extract_keywords_from_mails key mails =
        .error (txt "AI_SERVICE: SILICONFLOW_API_KEY 未配置，无法提取关键词。")) ∧
    (keyUnconfigured key = false →
      ∃ kws, extract_keywords_from_mails key mails = .ok (kws, failedIdsOf mails) ∧
        ∀ m content, (m, ApiOutcome.ok content) ∈ mails →
          ∀ x ∈ harvestContent [] content, x ∈ kws) := by
  constructor
  · intro h
    simp [extract_keywords_from_mails, h]
  · intro h
    refine ⟨(extractLoop mails [] []).1, ?_, ?_⟩
    · have h2 := extractLoop_snd mails [] []
      simp only [extract_keywords_from_mails, h, Bool.false_eq_true, if_false]
      simp only [List.nil_append] at h2
      rw [← h2]
    · intro m content hmem x hx
      exact extractLoop_fst_of_ok mails [] [] hmem hx

theorem spec_C7_witness :
    (keyUnconfigured (txt "sk-YOUR_KEY") = true ∧
      extract_keywords_from_mails (txt "sk-YOUR_KEY")
          [((1, txt "s1", txt "b1"), .ok (txt "免费彩票, 中大奖")),
           ((2, txt "s2", txt "b2"), .err),
           ((3, txt "s3", txt "b3"), .ok (txt "高额回报"))] =
        .error (txt "AI_SERVICE: SILICONFLOW_API_KEY 未配置，无法提取关键词。")) ∧
    (keyUnconfigured (txt "sk-abc123") = false ∧
      ∃ kws, extract_keywords_from_mails (txt "sk-abc123")
          [((1, txt "s1", txt "b1"), .ok (txt "免费彩票, 中大奖")),
           ((2, txt "s2", txt "b2"), .err),
           ((3, txt "s3", txt "b3"), .ok (txt "高额回报"))] =
        .ok (kws, failedIdsOf
          [((1, txt "s1", txt "b1"), .ok (txt "免费彩票, 中大奖")),
           ((2, txt "s2", txt "b2"), .err),
           ((3, txt "s3", txt "b3"), .ok (txt "高额回报"))]) ∧
        ∀ m content, (m, ApiOutcome.ok content) ∈
            [((1, txt "s1", txt "b1"), .ok (txt "免费彩票, 中大奖")),
             ((2, txt "s2", txt "b2"), .err),
             ((3, txt "s3", txt "b3"), .ok (txt "高额回报"))] →
          ∀ x ∈ harvestContent [] content, x ∈ kws) :=
  ⟨⟨by decide, (spec_C7 (txt "sk-YOUR_KEY") _).1 (by decide)⟩,
    ⟨by decide, (spec_C7 (txt "sk-abc123") _).2 (by decide)⟩⟩

end Spamfilter
